import Mathlib

/-!
Verification development for the LoopNet scraping core
(src/scripts/scrape_loopnet.py and src/scripts/utils.py).

Shallow embedding conventions:
- Python strings are Lean `String` (operated on as `List Char`); the
  embedding of the regex character classes is ASCII (`Char.isDigit`,
  `Char.isAlphanum`), matching the data the scraper handles.
- Python `float` values coming out of the numeric parsers are modelled as
  `Option ℚ` (`PyNum`), where `none` stands for `float(nan)` (the parsers
  return `np.nan` on failure, never raise). A dictionary field that may
  also be Python `None` is `Option PyNum`: `none` is Python `None`,
  `some none` is `nan`, `some (some q)` is the real number `q`.
- Python truthiness of those values is embedded explicitly: `None` and
  `0.0` are falsy, `nan` and every other float are truthy; the empty
  string is falsy.
- Exceptions are `Except`/`Option`: a `try` body that can fail is a value
  of `Option`/`Except` and the `except` arm is the `none`/`error` branch.
-/

/-! ## Embedding of the Python string primitives used by utils.py -/

/-- Whitespace characters matched by the regex class backslash-s and by
`str.strip()` (ASCII fragment). -/
def pyIsSpace (c : Char) : Bool :=
  c == ' ' || c == '\t' || c == '\n' || c == '\r' || c == '\x0b' || c == '\x0c'

/-- Python `str.strip()` on a character list. -/
def pyStrip (l : List Char) : List Char :=
  ((l.dropWhile pyIsSpace).reverse.dropWhile pyIsSpace).reverse

/-- One pass of `re.sub(r'\s+', ' ', text)`: every maximal whitespace run
becomes a single space. The flag records whether the previous character was
part of a whitespace run. -/
def collapseWsAux : List Char → Bool → List Char
  | [], _ => []
  | c :: rest, prev =>
    if pyIsSpace c then
      if prev then collapseWsAux rest true else ' ' :: collapseWsAux rest true
    else c :: collapseWsAux rest false

/-- One pass of `re.sub(r' +', ' ', text)`: every maximal run of plain
spaces becomes a single space. -/
def collapseSpacesAux : List Char → Bool → List Char
  | [], _ => []
  | c :: rest, prev =>
    if c == ' ' then
      if prev then collapseSpacesAux rest true else ' ' :: collapseSpacesAux rest true
    else c :: collapseSpacesAux rest false

/-- Characters kept by `re.sub(r'[^\w\s.,!?;:()\-\'"]', '', text)` in
`clean_text` (utils.py line 84). -/
def keepTextChar (c : Char) : Bool :=
  c.isAlphanum || c == '_' || pyIsSpace c || c == '.' || c == ',' || c == '!' ||
    c == '?' || c == ';' || c == ':' || c == '(' || c == ')' || c == '-' ||
    c == Char.ofNat 39 || c == '"'

/-- utils.py `clean_text` (lines 65-92): collapse whitespace runs, drop
characters outside the allowed class, collapse space runs, strip. -/
def clean_text (s : String) : String :=
  String.mk (pyStrip (collapseSpacesAux ((collapseWsAux s.toList false).filter keepTextChar) false))

/-! ## Embedding of the numeric parsers (utils.py) -/

/-- A float produced by the numeric parsers: `none` is `nan`. -/
abbrev PyNum := Option ℚ

/-- Value of a nonempty digit string read in base 10. -/
def digitsToNat (l : List Char) : Nat :=
  l.foldl (fun n c => 10 * n + (c.toNat - 48)) 0

/-- Python `float(s)` restricted to strings of digits and periods, which is
all the parsers can pass to it after their cleaning steps: it succeeds
exactly when the string is made of digits and periods, has at least one
digit and at most one period. -/
def pyFloatParse (s : List Char) : Option ℚ :=
  if s.all (fun c => c.isDigit || c == '.') && s.any (fun c => c.isDigit) &&
      decide (s.count '.' ≤ 1) then
    some (mkRat
      (Int.ofNat (digitsToNat (s.takeWhile (fun c => !(c == '.'))) *
        10 ^ ((s.dropWhile (fun c => !(c == '.'))).drop 1).length +
        digitsToNat ((s.dropWhile (fun c => !(c == '.'))).drop 1)))
      (10 ^ ((s.dropWhile (fun c => !(c == '.'))).drop 1).length))
  else none

/-- `re.sub(r'[^\d.,]', '', price_str)` (utils.py line 111): keep only
digits, periods and commas. -/
def keepNumChars (s : List Char) : List Char :=
  s.filter (fun c => c.isDigit || c == '.' || c == ',')

/-- `price_str.replace(',', '')` (utils.py line 114). -/
def dropCommas (s : List Char) : List Char :=
  s.filter (fun c => !(c == ','))

/-- utils.py `parse_price` (lines 95-119): strip every character that is
not a digit, comma or period; drop commas; `float(...)`, with `nan` /
`none` on `ValueError`. -/
def parse_price (s : String) : Option ℚ :=
  pyFloatParse (dropCommas (keepNumChars s.toList))

/-- The numeric coercion in the words of the spec (section 4.3): strip
every character that is not a digit, comma, or period; drop thousands
separators; parse the remaining token; null on parse failure. Stated
separately from `parse_price` so the two parsers can be compared to it. -/
def specNumCoerce (s : String) : Option ℚ :=
  pyFloatParse (dropCommas (keepNumChars s.toList))

/-- Characters of the regex class `[\d,]` used by `parse_square_feet`. -/
def isDigitComma (c : Char) : Bool :=
  c.isDigit || c == ','

/-- `re.search(r'([\d,]+)', s)`: the leftmost maximal run of digits and
commas, if any. -/
def firstRun : List Char → Option (List Char)
  | [] => none
  | c :: rest =>
    if isDigitComma c then some ((c :: rest).takeWhile isDigitComma)
    else firstRun rest

/-- utils.py `parse_square_feet` (lines 122-146): take the first maximal
run of digits and commas, drop commas, `float(...)`; `nan` / `none` when
there is no run or the parse fails. -/
def parse_square_feet (s : String) : Option ℚ :=
  match firstRun s.toList with
  | some run => pyFloatParse (dropCommas run)
  | none => none

/-! ## Embedding of extract_city_state (utils.py lines 149-171)

`re.search(r'([^,]+),\s*([A-Z]{2})', location)`. For this pattern the
backtracking search collapses to a deterministic scan: at a given start
position the greedy `[^,]+` can only end at the next comma (a shorter
match would put a non-comma character under the literal comma), and after
the comma the greedy `\s*` must swallow the whole whitespace run (a
shorter match would put a whitespace character under `[A-Z]`). `re.search`
tries start positions left to right. -/

/-- ASCII uppercase, the regex class `[A-Z]`. -/
def isUpperAZ (c : Char) : Bool :=
  'A' ≤ c && c ≤ 'Z'

/-- Attempt of the pattern at one start position: group 1 is the run of
non-comma characters up to the next comma, which must exist and be
followed, after optional whitespace, by two ASCII uppercase letters
(group 2). -/
def csMatchAt (cs : List Char) : Option (List Char × List Char) :=
  let g1 := cs.takeWhile (fun c => !(c == ','))
  if g1.isEmpty then none
  else
    match cs.drop g1.length with
    | ',' :: rest =>
      match rest.dropWhile pyIsSpace with
      | a :: b :: _ => if isUpperAZ a && isUpperAZ b then some (g1, [a, b]) else none
      | _ => none
    | _ => none

/-- `re.search`: leftmost start position at which the pattern matches. -/
def csSearch : List Char → Option (List Char × List Char)
  | [] => none
  | c :: rest =>
    match csMatchAt (c :: rest) with
    | some r => some r
    | none => csSearch rest

/-- utils.py `extract_city_state` (lines 149-171): strip the location,
search for the pattern, and strip the two captured groups; `(None, None)`
when there is no match. -/
def extract_city_state (location : String) : Option String × Option String :=
  match csSearch (pyStrip location.toList) with
  | some (g1, g2) => (some (String.mk (pyStrip g1)), some (String.mk (pyStrip g2)))
  | none => (none, none)

/-! ## Record model (scrape_loopnet.py, `property_data` dict lines 155-171)

A dictionary field holding a parsed number is `Option PyNum`: `none` is
Python `None` (never assigned), `some none` is `nan`, `some (some q)` is a
real value. -/

/-- The `property_data` dictionary of `scrape_property`: the fixed schema,
in source order. `source` and `url` are always set; every other field
starts as `None`. -/
structure PropertyData where
  source : String
  url : String
  property_id : Option String
  title : Option String
  description : Option String
  price : Option PyNum
  price_per_sqft : Option PyNum
  square_feet : Option PyNum
  property_type : Option String
  city : Option String
  state : Option String
  address : Option String
  year_built : Option String
  parking_spaces : Option String
  listing_date : Option String
deriving DecidableEq

/-- The dictionary literal at scrape_loopnet.py lines 155-171. -/
def initRecord (url : String) : PropertyData :=
  { source := "LoopNet", url := url, property_id := none, title := none,
    description := none, price := none, price_per_sqft := none,
    square_feet := none, property_type := none, city := none, state := none,
    address := none, year_built := none, parking_spaces := none,
    listing_date := none }

/-- Python truthiness of an optional string field: `None` and the empty
string are falsy. -/
def strTruthy : Option String → Bool
  | none => false
  | some s => !s.isEmpty

/-- Python truthiness of a float: `0.0` is falsy, `nan` and every other
float are truthy. -/
def numTruthyV : PyNum → Bool
  | none => true
  | some q => decide (q ≠ 0)

/-- Python truthiness of a numeric dictionary field: `None` is falsy,
otherwise float truthiness. -/
def numFieldTruthy : Option PyNum → Bool
  | none => false
  | some v => numTruthyV v

/-- Float division as used at lines 210/252: any operand `nan` gives
`nan`; the divisor is guarded to be truthy at the call sites, so the
`b = 0` case is unreachable there (mapped to `nan`). -/
def pyDiv : PyNum → PyNum → PyNum
  | some a, some b => if b = 0 then none else some (a / b)
  | _, _ => none

/-- The real number held by a numeric field, if any: both Python `None`
and `nan` count as null. -/
def realNum : Option PyNum → Option ℚ
  | some (some q) => some q
  | _ => none

/-- Abstraction of a fetched detail-page document: the text of the first
element matched by each CSS selector group (`none` when `find_element`
raises / `select_one` returns no element), and the list of meta tags as
(property, content) attribute pairs. -/
structure Doc where
  titleText : Option String
  descText : Option String
  priceText : Option String
  sqftText : Option String
  locationText : Option String
  metaTags : List (String × String)
deriving DecidableEq

/-- Python substring test `pat in s` helper: does `s` start with `pat`. -/
def startsList : List Char → List Char → Bool
  | [], _ => true
  | _ :: _, [] => false
  | a :: as, b :: bs => a == b && startsList as bs

/-- Python substring test `pat in s`. -/
def subStr (pat : List Char) : List Char → Bool
  | [] => startsList pat []
  | c :: rest => startsList pat (c :: rest) || subStr pat rest

/-- Title extraction (lines 186-190 selenium / 234-236 static). -/
def stepTitle (doc : Doc) (pd : PropertyData) : PropertyData :=
  match doc.titleText with
  | none => pd
  | some t => { pd with title := some (clean_text t) }

/-- Description extraction (lines 192-196 / 238-240). -/
def stepDesc (doc : Doc) (pd : PropertyData) : PropertyData :=
  match doc.descText with
  | none => pd
  | some t => { pd with description := some (clean_text t) }

/-- Price extraction (lines 198-203 / 242-245). -/
def stepPrice (doc : Doc) (pd : PropertyData) : PropertyData :=
  match doc.priceText with
  | none => pd
  | some t => { pd with price := some (parse_price t) }

/-- Square-feet extraction and the guarded price_per_sqft computation
(lines 205-212 / 247-252): `if property_data['price'] and
property_data['square_feet']` is Python truthiness of the two fields. -/
def stepSqft (doc : Doc) (pd : PropertyData) : PropertyData :=
  match doc.sqftText with
  | none => pd
  | some t =>
    let pd1 := { pd with square_feet := some (parse_square_feet t) }
    match pd.price with
    | none => pd1
    | some p =>
      if numTruthyV p && numTruthyV (parse_square_feet t) then
        { pd1 with price_per_sqft := some (pyDiv p (parse_square_feet t)) }
      else pd1

/-- Location extraction (lines 214-222 / 254-260). -/
def stepLocation (doc : Doc) (pd : PropertyData) : PropertyData :=
  match doc.locationText with
  | none => pd
  | some t =>
    { pd with
        address := some (clean_text t),
        city := (extract_city_state t).1,
        state := (extract_city_state t).2 }

/-- One meta tag of the secondary pass (lines 264-273): `'og:title' in
prop` is a substring test, and `if not property_data['title']` assigns
when the field is falsy (Python `None` or the empty string). -/
def metaStep (pd : PropertyData) (tag : String × String) : PropertyData :=
  if subStr "og:title".toList tag.1.toList then
    if strTruthy pd.title then pd else { pd with title := some (clean_text tag.2) }
  else if subStr "og:description".toList tag.1.toList then
    if strTruthy pd.description then pd
    else { pd with description := some (clean_text tag.2) }
  else pd

/-- The secondary metadata pass over all meta tags (lines 262-273). -/
def metaPass (pd : PropertyData) (tags : List (String × String)) : PropertyData :=
  tags.foldl metaStep pd

/-- Scan of `url.split('/')` for the first part equal to `property` or
`listing` that has a following part (lines 277-281); `parts[i+1]` holds no
slash, so its `.split('/')[0]` is itself. -/
def idFromParts : List String → Option String
  | p :: next :: rest =>
    if p = "property" || p = "listing" then some next
    else idFromParts (next :: rest)
  | _ => none

/-- property_id derivation from the URL (lines 276-281). -/
def extractId (url : String) : Option String :=
  if subStr "/property/".toList url.toList || subStr "/listing/".toList url.toList then
    idFromParts (url.splitOn "/")
  else none

/-- Setting `property_data['property_id']` at the end of the try block. -/
def setId (url : String) (pd : PropertyData) : PropertyData :=
  { pd with property_id := extractId url }

/-- The field-extraction passes applied in source order to a successfully
fetched document. -/
def primaryPass (doc : Doc) (pd : PropertyData) : PropertyData :=
  stepLocation doc (stepSqft doc (stepPrice doc (stepDesc doc (stepTitle doc pd))))

/-- scrape_loopnet.py `scrape_property` (lines 143-288): build the schema
dictionary, and inside a catch-all `try` run the per-field extractions,
the metadata pass and the property_id derivation. `fetched = none` is the
case where the page fetch itself raises: the `except` arm returns the
dictionary as initialized. The function is total: it never raises. -/
def scrapeProperty (fetched : Option Doc) (url : String) : PropertyData :=
  match fetched with
  | none => initRecord url
  | some doc => setId url (metaPass (primaryPass doc (initRecord url)) doc.metaTags)

/-- A Python value stored in the `property_data` dictionary. -/
inductive PyVal
  | vnone
  | vstr (s : String)
  | vnum (v : PyNum)
deriving DecidableEq

/-- Dictionary view of an optional string field. -/
def optStrVal : Option String → PyVal
  | none => .vnone
  | some s => .vstr s

/-- Dictionary view of an optional numeric field. -/
def optNumVal : Option PyNum → PyVal
  | none => .vnone
  | some v => .vnum v

/-- The key list of the `property_data` dictionary, in the order of the
literal at lines 155-171. -/
def schemaKeys : List String :=
  ["source", "url", "property_id", "title", "description", "price",
   "price_per_sqft", "square_feet", "property_type", "city", "state",
   "address", "year_built", "parking_spaces", "listing_date"]

/-- The record as the key-value mapping that `scrape_property` returns. -/
def PropertyData.toMap (r : PropertyData) : List (String × PyVal) :=
  [("source", .vstr r.source), ("url", .vstr r.url),
   ("property_id", optStrVal r.property_id), ("title", optStrVal r.title),
   ("description", optStrVal r.description), ("price", optNumVal r.price),
   ("price_per_sqft", optNumVal r.price_per_sqft),
   ("square_feet", optNumVal r.square_feet),
   ("property_type", optStrVal r.property_type), ("city", optStrVal r.city),
   ("state", optStrVal r.state), ("address", optStrVal r.address),
   ("year_built", optStrVal r.year_built),
   ("parking_spaces", optStrVal r.parking_spaces),
   ("listing_date", optStrVal r.listing_date)]

/-! ## Crawl model (scrape_loopnet.py, class state and
`scrape_multiple_pages`, selenium backend)

The class default configuration uses the selenium backend
(`use_selenium: True`), the backend the claims cite (lines 96-121,
174-227). The environment fixes the outcome of every effect: the two
effectful steps of the session initialization (the driver construction
and assignment at line 72, and the `execute_script` call at line 73 that
runs on the already-stored driver and can still raise), the raw href list
each search page yields, whether the search-page try body raises, and the
fetch outcome of each detail page. -/

/-- The crawl environment: outcomes of all external effects. `initOk` is
whether the construction `self.driver = webdriver.Chrome(...)` at line 72
succeeds; `initScriptOk` is whether the subsequent
`self.driver.execute_script(...)` at line 73 succeeds — when it raises,
`self.driver` already holds the live session. -/
structure Env where
  initOk : Bool
  initScriptOk : Bool
  rawLinks : String → List String
  searchFails : String → Bool
  detailDoc : String → Option Doc

/-- Mutable scraper state: `driver` is whether `self.driver` is non-None,
`inits` counts successful `webdriver.Chrome(...)` constructions, `releases`
counts `driver.quit()` calls, `properties` is `self.properties`. -/
structure ScraperState where
  driver : Bool
  inits : Nat
  releases : Nat
  properties : List PropertyData
deriving DecidableEq

/-- State of a fresh `LoopNetScraper` (constructor lines 51-57). -/
def initState : ScraperState :=
  { driver := false, inits := 0, releases := 0, properties := [] }

/-- `_init_driver` (lines 59-75): no-op when the driver exists; otherwise
two effectful steps in source order. If the construction at line 72 fails,
a SessionError is raised with `self.driver` still None. If the
construction succeeds, the driver is stored in `self.driver` FIRST; the
`execute_script` call at line 73 runs afterwards, so when it raises, the
SessionError propagates with a live session already held in
`self.driver`. -/
def initDriver (e : Env) (s : ScraperState) : Except ScraperState ScraperState :=
  if s.driver then .ok s
  else if e.initOk then
    if e.initScriptOk then .ok { s with driver := true, inits := s.inits + 1 }
    else .error { s with driver := true, inits := s.inits + 1 }
  else .error s

/-- `_close_driver` (lines 77-82): quit and clear the driver if present. -/
def closeDriver (s : ScraperState) : ScraperState :=
  if s.driver then { s with driver := false, releases := s.releases + 1 } else s

/-- In-page link deduplication (lines 109-114): append each href not seen
before on this page, preserving first-seen order. Also the model of the
global `list(set(...))` deduplication at line 315 (set contents with a
canonical first-seen enumeration order; Python set order is arbitrary). -/
def dedupF (l : List String) : List String :=
  l.foldl (fun acc href => if href ∈ acc then acc else acc ++ [href]) []

/-- `scrape_search_page` (lines 84-121, selenium branch): `_init_driver()`
runs BEFORE the try block, so an initialization failure propagates; any
failure inside the try body is caught and yields `[]`. -/
def scrapeSearchPage (e : Env) (s : ScraperState) (u : String) :
    Except ScraperState (ScraperState × List String) :=
  match initDriver e s with
  | .error s1 => .error s1
  | .ok s1 => .ok (s1, if e.searchFails u then [] else dedupF (e.rawLinks u))

/-- The link-discovery loop of `scrape_multiple_pages` (lines 303-312):
extend the accumulated link list per seed and break once the cap is
reached; an uncaught SessionError propagates. -/
def discoverLinks (e : Env) (cap : Nat) :
    List String → ScraperState → List String →
      Except ScraperState (ScraperState × List String)
  | [], s, acc => .ok (s, acc)
  | u :: rest, s, acc =>
    match scrapeSearchPage e s u with
    | .error s1 => .error s1
    | .ok (s1, links) =>
      let acc1 := acc ++ links
      if cap ≤ acc1.length then .ok (s1, acc1)
      else discoverLinks e cap rest s1 acc1

/-- `scrape_property` with the driver lifecycle (lines 173-177): the
`_init_driver()` call is INSIDE the try block, so an initialization
failure there is caught and the schema dictionary is returned with only
source and url set. -/
def scrapePropertySt (e : Env) (s : ScraperState) (u : String) :
    ScraperState × PropertyData :=
  match initDriver e s with
  | .error s1 => (s1, initRecord u)
  | .ok s1 => (s1, scrapeProperty (e.detailDoc u) u)

/-- One iteration body of the extraction loop (lines 323-325): scrape the
detail page, then append the record only when its title or description is
truthy (line 324 `if property_data.get('title') or
property_data.get('description')`). -/
def extractStep (e : Env) (s : ScraperState) (u : String) : ScraperState :=
  if strTruthy (scrapePropertySt e s u).2.title ||
      strTruthy (scrapePropertySt e s u).2.description then
    { (scrapePropertySt e s u).1 with
        properties := (scrapePropertySt e s u).1.properties ++
          [(scrapePropertySt e s u).2] }
  else (scrapePropertySt e s u).1

/-- The extraction loop of `scrape_multiple_pages` (lines 319-330): run
`extractStep` per link, stopping once the cap is reached. -/
def extractLoop (e : Env) (cap : Nat) : List String → ScraperState → ScraperState
  | [], s => s
  | u :: rest, s =>
    if cap ≤ s.properties.length then s
    else extractLoop e cap rest (extractStep e s u)

/-- `scrape_multiple_pages` (lines 290-337) on a fresh scraper: discover
links over the seeds (a SessionError there escapes the method), globally
deduplicate and cap them, run the extraction loop, close the driver and
return the accumulated records. The `.error` side is the state at the
moment the uncaught exception leaves the method. -/
def scrapeMultiplePages (e : Env) (cap : Nat) (searchUrls : List String) :
    Except ScraperState (ScraperState × List PropertyData) :=
  match discoverLinks e cap searchUrls initState [] with
  | .error s => .error s
  | .ok (s, all) =>
    let linkSet := (dedupF all).take cap
    let s2 := extractLoop e cap linkSet s
    let s3 := closeDriver s2
    .ok (s3, s3.properties)

/-- The global merged LinkSet after the discovery phase (line 315), when
discovery completes without an uncaught exception. -/
def crawlLinkSet (e : Env) (cap : Nat) (searchUrls : List String) :
    Option (List String) :=
  match discoverLinks e cap searchUrls initState [] with
  | .error _ => none
  | .ok (_, all) => some ((dedupF all).take cap)

/-- Whether the crawl returned normally. -/
def crawlOk : Except ScraperState (ScraperState × List PropertyData) → Bool
  | .ok _ => true
  | .error _ => false

/-- The record collection a normally-returning crawl hands to its caller
(`[]` on the exception side, where nothing is returned at all). -/
def crawlRecords : Except ScraperState (ScraperState × List PropertyData) →
    List PropertyData
  | .ok (_, ps) => ps
  | .error _ => []

/-- The scraper state at the moment `scrape_multiple_pages` exits, on
either path. -/
def finalStateOf : Except ScraperState (ScraperState × List PropertyData) →
    ScraperState
  | .ok (s, _) => s
  | .error s => s

/-! ## Concrete fixtures used by counterexamples and witnesses -/

/-- Detail page with a title, a zero price and a positive square footage. -/
def docZeroPrice : Doc :=
  { titleText := some "T", descText := none, priceText := some "$0",
    sqftText := some "100 SF", locationText := none, metaTags := [] }

/-- Detail page whose title element text cleans to the empty string. -/
def docHashTitle : Doc :=
  { titleText := some "#", descText := none, priceText := none,
    sqftText := none, locationText := none, metaTags := [] }

/-- Same page with an `og:title` meta tag added. -/
def docHashTitleMeta : Doc :=
  { docHashTitle with metaTags := [("og:title", "Nice Building")] }

/-- Detail page with just a usable title. -/
def docPlain : Doc :=
  { titleText := some "Office Tower", descText := none, priceText := none,
    sqftText := none, locationText := none, metaTags := [] }

/-- Environment whose driver construction (line 72) fails. -/
def envInitFail : Env :=
  { initOk := false, initScriptOk := true, rawLinks := fun _ => [],
    searchFails := fun _ => false, detailDoc := fun _ => none }

/-- Environment whose driver construction (line 72) succeeds but whose
`execute_script` call (line 73) raises: initialization fails with a live
session already stored in `self.driver`. -/
def envInitLeak : Env :=
  { initOk := true, initScriptOk := false, rawLinks := fun _ => [],
    searchFails := fun _ => false, detailDoc := fun _ => none }

/-- Healthy environment: one seed page "A" yielding one link, whose detail
page has a title. -/
def envOk : Env :=
  { initOk := true, initScriptOk := true, rawLinks := fun _ => ["L1"],
    searchFails := fun _ => false, detailDoc := fun _ => some docPlain }

/-- Environment for the LinkSet merge example: seed "A" yields L1, L2, L3
(with an in-page duplicate of L2), seed "B" yields L2, L4. -/
def envMerge : Env :=
  { initOk := true,
    initScriptOk := true,
    rawLinks := fun u =>
      if u = "A" then ["L1", "L2", "L2", "L3"]
      else if u = "B" then ["L2", "L4"] else [],
    searchFails := fun _ => false,
    detailDoc := fun _ => some docPlain }

/-- Environment whose only detail page has an empty-cleaning title. -/
def envHash : Env :=
  { initOk := true, initScriptOk := true, rawLinks := fun _ => ["L1"],
    searchFails := fun _ => false, detailDoc := fun _ => some docHashTitle }

/-- The physical-resource invariant maintained between the start of a
crawl and the final `_close_driver` call: nothing has been released yet,
and the construction count matches whether the driver currently exists. -/
def physInv (s : ScraperState) : Prop :=
  s.releases = 0 ∧ s.inits = (if s.driver then 1 else 0)

/-! ## Field-projection lemmas: which record fields each pass can touch -/

theorem stepTitle_price (doc : Doc) (pd : PropertyData) :
    (stepTitle doc pd).price = pd.price := by
  cases h : doc.titleText <;> simp [stepTitle, h]

theorem stepTitle_sqft (doc : Doc) (pd : PropertyData) :
    (stepTitle doc pd).square_feet = pd.square_feet := by
  cases h : doc.titleText <;> simp [stepTitle, h]

theorem stepTitle_psf (doc : Doc) (pd : PropertyData) :
    (stepTitle doc pd).price_per_sqft = pd.price_per_sqft := by
  cases h : doc.titleText <;> simp [stepTitle, h]

theorem stepTitle_source (doc : Doc) (pd : PropertyData) :
    (stepTitle doc pd).source = pd.source := by
  cases h : doc.titleText <;> simp [stepTitle, h]

theorem stepTitle_url (doc : Doc) (pd : PropertyData) :
    (stepTitle doc pd).url = pd.url := by
  cases h : doc.titleText <;> simp [stepTitle, h]

theorem stepDesc_price (doc : Doc) (pd : PropertyData) :
    (stepDesc doc pd).price = pd.price := by
  cases h : doc.descText <;> simp [stepDesc, h]

theorem stepDesc_sqft (doc : Doc) (pd : PropertyData) :
    (stepDesc doc pd).square_feet = pd.square_feet := by
  cases h : doc.descText <;> simp [stepDesc, h]

theorem stepDesc_psf (doc : Doc) (pd : PropertyData) :
    (stepDesc doc pd).price_per_sqft = pd.price_per_sqft := by
  cases h : doc.descText <;> simp [stepDesc, h]

theorem stepDesc_source (doc : Doc) (pd : PropertyData) :
    (stepDesc doc pd).source = pd.source := by
  cases h : doc.descText <;> simp [stepDesc, h]

theorem stepDesc_url (doc : Doc) (pd : PropertyData) :
    (stepDesc doc pd).url = pd.url := by
  cases h : doc.descText <;> simp [stepDesc, h]

theorem stepPrice_char (doc : Doc) (pd : PropertyData) :
    (stepPrice doc pd).price =
      match doc.priceText with
      | none => pd.price
      | some t => some (parse_price t) := by
  cases h : doc.priceText <;> simp [stepPrice, h]

theorem stepPrice_sqft (doc : Doc) (pd : PropertyData) :
    (stepPrice doc pd).square_feet = pd.square_feet := by
  cases h : doc.priceText <;> simp [stepPrice, h]

theorem stepPrice_psf (doc : Doc) (pd : PropertyData) :
    (stepPrice doc pd).price_per_sqft = pd.price_per_sqft := by
  cases h : doc.priceText <;> simp [stepPrice, h]

theorem stepPrice_source (doc : Doc) (pd : PropertyData) :
    (stepPrice doc pd).source = pd.source := by
  cases h : doc.priceText <;> simp [stepPrice, h]

theorem stepPrice_url (doc : Doc) (pd : PropertyData) :
    (stepPrice doc pd).url = pd.url := by
  cases h : doc.priceText <;> simp [stepPrice, h]

theorem stepSqft_price (doc : Doc) (pd : PropertyData) :
    (stepSqft doc pd).price = pd.price := by
  cases h : doc.sqftText <;> cases hp : pd.price <;>
    simp [stepSqft, h, hp] <;> split <;> rfl

theorem stepSqft_sqft (doc : Doc) (pd : PropertyData) :
    (stepSqft doc pd).square_feet =
      match doc.sqftText with
      | none => pd.square_feet
      | some t => some (parse_square_feet t) := by
  cases h : doc.sqftText <;> cases hp : pd.price <;>
    simp [stepSqft, h, hp] <;> split <;> rfl

theorem stepSqft_psf (doc : Doc) (pd : PropertyData) :
    (stepSqft doc pd).price_per_sqft =
      match doc.sqftText, pd.price with
      | some t, some p =>
        if numTruthyV p && numTruthyV (parse_square_feet t) then
          some (pyDiv p (parse_square_feet t))
        else pd.price_per_sqft
      | _, _ => pd.price_per_sqft := by
  cases h : doc.sqftText <;> cases hp : pd.price <;>
    simp [stepSqft, h, hp] <;> split <;> rfl

theorem stepSqft_source (doc : Doc) (pd : PropertyData) :
    (stepSqft doc pd).source = pd.source := by
  cases h : doc.sqftText <;> cases hp : pd.price <;>
    simp [stepSqft, h, hp] <;> split <;> rfl

theorem stepSqft_url (doc : Doc) (pd : PropertyData) :
    (stepSqft doc pd).url = pd.url := by
  cases h : doc.sqftText <;> cases hp : pd.price <;>
    simp [stepSqft, h, hp] <;> split <;> rfl

theorem stepLocation_price (doc : Doc) (pd : PropertyData) :
    (stepLocation doc pd).price = pd.price := by
  cases h : doc.locationText <;> simp [stepLocation, h]

theorem stepLocation_sqft (doc : Doc) (pd : PropertyData) :
    (stepLocation doc pd).square_feet = pd.square_feet := by
  cases h : doc.locationText <;> simp [stepLocation, h]

theorem stepLocation_psf (doc : Doc) (pd : PropertyData) :
    (stepLocation doc pd).price_per_sqft = pd.price_per_sqft := by
  cases h : doc.locationText <;> simp [stepLocation, h]

theorem stepLocation_source (doc : Doc) (pd : PropertyData) :
    (stepLocation doc pd).source = pd.source := by
  cases h : doc.locationText <;> simp [stepLocation, h]

theorem stepLocation_url (doc : Doc) (pd : PropertyData) :
    (stepLocation doc pd).url = pd.url := by
  cases h : doc.locationText <;> simp [stepLocation, h]

theorem metaStep_price (pd : PropertyData) (tag : String × String) :
    (metaStep pd tag).price = pd.price := by
  unfold metaStep; split_ifs <;> rfl

theorem metaStep_sqft (pd : PropertyData) (tag : String × String) :
    (metaStep pd tag).square_feet = pd.square_feet := by
  unfold metaStep; split_ifs <;> rfl

theorem metaStep_psf (pd : PropertyData) (tag : String × String) :
    (metaStep pd tag).price_per_sqft = pd.price_per_sqft := by
  unfold metaStep; split_ifs <;> rfl

theorem metaStep_source (pd : PropertyData) (tag : String × String) :
    (metaStep pd tag).source = pd.source := by
  unfold metaStep; split_ifs <;> rfl

theorem metaStep_url (pd : PropertyData) (tag : String × String) :
    (metaStep pd tag).url = pd.url := by
  unfold metaStep; split_ifs <;> rfl

theorem metaStep_title_truthy (pd : PropertyData) (tag : String × String)
    (h : strTruthy pd.title = true) : (metaStep pd tag).title = pd.title := by
  unfold metaStep; split_ifs with h1 h2 h3 h4 <;> first | rfl | exact absurd h (by simp_all)

theorem metaStep_desc_truthy (pd : PropertyData) (tag : String × String)
    (h : strTruthy pd.description = true) :
    (metaStep pd tag).description = pd.description := by
  unfold metaStep; split_ifs with h1 h2 h3 h4 <;> first | rfl | exact absurd h (by simp_all)

theorem metaStep_title_keeps (pd : PropertyData) (tag : String × String)
    (h : strTruthy pd.title = true) : strTruthy (metaStep pd tag).title = true := by
  rw [metaStep_title_truthy pd tag h]; exact h

theorem metaStep_desc_keeps (pd : PropertyData) (tag : String × String)
    (h : strTruthy pd.description = true) :
    strTruthy (metaStep pd tag).description = true := by
  rw [metaStep_desc_truthy pd tag h]; exact h

theorem metaPass_cons (pd : PropertyData) (t : String × String)
    (ts : List (String × String)) :
    metaPass pd (t :: ts) = metaPass (metaStep pd t) ts := rfl

theorem metaPass_price (pd : PropertyData) (tags : List (String × String)) :
    (metaPass pd tags).price = pd.price := by
  induction tags generalizing pd with
  | nil => rfl
  | cons t ts ih => rw [metaPass_cons, ih, metaStep_price]

theorem metaPass_sqft (pd : PropertyData) (tags : List (String × String)) :
    (metaPass pd tags).square_feet = pd.square_feet := by
  induction tags generalizing pd with
  | nil => rfl
  | cons t ts ih => rw [metaPass_cons, ih, metaStep_sqft]

theorem metaPass_psf (pd : PropertyData) (tags : List (String × String)) :
    (metaPass pd tags).price_per_sqft = pd.price_per_sqft := by
  induction tags generalizing pd with
  | nil => rfl
  | cons t ts ih => rw [metaPass_cons, ih, metaStep_psf]

theorem metaPass_source (pd : PropertyData) (tags : List (String × String)) :
    (metaPass pd tags).source = pd.source := by
  induction tags generalizing pd with
  | nil => rfl
  | cons t ts ih => rw [metaPass_cons, ih, metaStep_source]

theorem metaPass_url (pd : PropertyData) (tags : List (String × String)) :
    (metaPass pd tags).url = pd.url := by
  induction tags generalizing pd with
  | nil => rfl
  | cons t ts ih => rw [metaPass_cons, ih, metaStep_url]

theorem metaPass_title_truthy (pd : PropertyData) (tags : List (String × String))
    (h : strTruthy pd.title = true) : (metaPass pd tags).title = pd.title := by
  induction tags generalizing pd with
  | nil => rfl
  | cons t ts ih =>
    rw [metaPass_cons, ih (metaStep pd t) (metaStep_title_keeps pd t h),
      metaStep_title_truthy pd t h]

theorem metaPass_desc_truthy (pd : PropertyData) (tags : List (String × String))
    (h : strTruthy pd.description = true) :
    (metaPass pd tags).description = pd.description := by
  induction tags generalizing pd with
  | nil => rfl
  | cons t ts ih =>
    rw [metaPass_cons, ih (metaStep pd t) (metaStep_desc_keeps pd t h),
      metaStep_desc_truthy pd t h]

theorem setId_price (url : String) (pd : PropertyData) :
    (setId url pd).price = pd.price := rfl

theorem setId_sqft (url : String) (pd : PropertyData) :
    (setId url pd).square_feet = pd.square_feet := rfl

theorem setId_psf (url : String) (pd : PropertyData) :
    (setId url pd).price_per_sqft = pd.price_per_sqft := rfl

theorem setId_source (url : String) (pd : PropertyData) :
    (setId url pd).source = pd.source := rfl

theorem setId_url (url : String) (pd : PropertyData) :
    (setId url pd).url = pd.url := rfl

/-! ## Values of the numeric fields of an extracted record -/

theorem scrapeProperty_price (doc : Doc) (url : String) :
    (scrapeProperty (some doc) url).price =
      doc.priceText.map (fun t => parse_price t) := by
  show (setId url (metaPass (primaryPass doc (initRecord url)) doc.metaTags)).price = _
  rw [setId_price, metaPass_price]
  unfold primaryPass
  rw [stepLocation_price, stepSqft_price, stepPrice_char]
  cases h : doc.priceText <;> simp [h, stepDesc_price, stepTitle_price, initRecord]

theorem scrapeProperty_sqft (doc : Doc) (url : String) :
    (scrapeProperty (some doc) url).square_feet =
      doc.sqftText.map (fun t => parse_square_feet t) := by
  show (setId url (metaPass (primaryPass doc (initRecord url)) doc.metaTags)).square_feet = _
  rw [setId_sqft, metaPass_sqft]
  unfold primaryPass
  rw [stepLocation_sqft, stepSqft_sqft]
  cases h : doc.sqftText <;>
    simp [h, stepPrice_sqft, stepDesc_sqft, stepTitle_sqft, initRecord]

theorem scrapeProperty_psf (doc : Doc) (url : String) :
    (scrapeProperty (some doc) url).price_per_sqft =
      match doc.sqftText, doc.priceText.map (fun t => parse_price t) with
      | some t, some p =>
        if numTruthyV p && numTruthyV (parse_square_feet t) then
          some (pyDiv p (parse_square_feet t))
        else none
      | _, _ => none := by
  show (setId url (metaPass (primaryPass doc (initRecord url)) doc.metaTags)).price_per_sqft = _
  rw [setId_psf, metaPass_psf]
  unfold primaryPass
  rw [stepLocation_psf, stepSqft_psf]
  have hpr : (stepPrice doc (stepDesc doc (stepTitle doc (initRecord url)))).price =
      doc.priceText.map (fun t => parse_price t) := by
    rw [stepPrice_char]
    cases h : doc.priceText <;> simp [h, stepDesc_price, stepTitle_price, initRecord]
  have hpsf : (stepPrice doc (stepDesc doc (stepTitle doc (initRecord url)))).price_per_sqft
      = none := by
    rw [stepPrice_psf, stepDesc_psf, stepTitle_psf]
    rfl
  rw [hpr, hpsf]
  cases h : doc.sqftText <;> cases hp : doc.priceText <;> simp

/-! ## Nonnegativity of the parsed numbers -/

theorem pyFloatParse_nonneg (s : List Char) (q : ℚ)
    (h : pyFloatParse s = some q) : 0 ≤ q := by
  unfold pyFloatParse at h
  split at h
  · have hq : _ = q := Option.some.inj h
    rw [← hq]
    exact Rat.mkRat_nonneg (Int.ofNat_nonneg _) _
  · exact absurd h (by simp)

theorem parse_square_feet_nonneg (s : String) (q : ℚ)
    (h : parse_square_feet s = some q) : 0 ≤ q := by
  unfold parse_square_feet at h
  split at h
  · exact pyFloatParse_nonneg _ _ h
  · exact absurd h (by simp)

/-! ## State-machine lemmas for the crawl model -/

theorem initDriver_error (e : Env) (s s1 : ScraperState)
    (h : initDriver e s = .error s1) (hs : physInv s) :
    physInv s1 ∧ s1.properties = s.properties := by
  unfold initDriver at h
  split_ifs at h with h1 h2 h3
  · cases h
    have hz : s.inits = 0 := by
      have hi := hs.2
      rw [if_neg (by simpa using h1)] at hi
      exact hi
    exact ⟨⟨hs.1, by simp [hz]⟩, rfl⟩
  · cases h
    exact ⟨hs, rfl⟩

theorem initDriver_ok_inv (e : Env) (s s1 : ScraperState)
    (h : initDriver e s = .ok s1) (hs : physInv s) :
    physInv s1 ∧ s1.properties = s.properties := by
  unfold initDriver at h
  split_ifs at h with h1 h2 h3
  · cases h
    exact ⟨hs, rfl⟩
  · cases h
    have hz : s.inits = 0 := by
      have hi := hs.2
      rw [if_neg (by simpa using h1)] at hi
      exact hi
    exact ⟨⟨hs.1, by simp [hz]⟩, rfl⟩

theorem scrapeSearchPage_ok (e : Env) (s : ScraperState) (u : String)
    (s1 : ScraperState) (links : List String)
    (h : scrapeSearchPage e s u = .ok (s1, links)) (hs : physInv s) :
    physInv s1 ∧ s1.properties = s.properties := by
  unfold scrapeSearchPage at h
  cases hid : initDriver e s with
  | error s2 => rw [hid] at h; cases h
  | ok s2 =>
    rw [hid] at h
    cases h
    exact initDriver_ok_inv e s _ hid hs

theorem scrapeSearchPage_error (e : Env) (s : ScraperState) (u : String)
    (s1 : ScraperState) (h : scrapeSearchPage e s u = .error s1)
    (hs : physInv s) :
    physInv s1 ∧ s1.properties = s.properties := by
  unfold scrapeSearchPage at h
  cases hid : initDriver e s with
  | error s2 =>
    rw [hid] at h
    cases h
    exact initDriver_error e s _ hid hs
  | ok s2 => rw [hid] at h; cases h

theorem discoverLinks_inv (e : Env) (cap : Nat) :
    ∀ (urls : List String) (s : ScraperState) (acc : List String),
      physInv s →
      (∀ s1 all, discoverLinks e cap urls s acc = .ok (s1, all) →
         physInv s1 ∧ s1.properties = s.properties) ∧
      (∀ s1, discoverLinks e cap urls s acc = .error s1 →
         physInv s1 ∧ s1.properties = s.properties) := by
  intro urls
  induction urls with
  | nil =>
    intro s acc hs
    constructor
    · intro s1 all h
      cases h
      exact ⟨hs, rfl⟩
    · intro s1 h
      cases h
  | cons u rest ih =>
    intro s acc hs
    constructor
    · intro s1 all h
      unfold discoverLinks at h
      cases hsp : scrapeSearchPage e s u with
      | error s2 => rw [hsp] at h; cases h
      | ok res =>
        obtain ⟨s2, links⟩ := res
        rw [hsp] at h
        dsimp only at h
        obtain ⟨hinv2, hprops2⟩ := scrapeSearchPage_ok e s u s2 links hsp hs
        split_ifs at h with hcap
        · cases h
          exact ⟨hinv2, hprops2⟩
        · obtain ⟨h1, _⟩ := ih s2 (acc ++ links) hinv2
          obtain ⟨ha, hb⟩ := h1 s1 all h
          exact ⟨ha, hb.trans hprops2⟩
    · intro s1 h
      unfold discoverLinks at h
      cases hsp : scrapeSearchPage e s u with
      | error s2 =>
        rw [hsp] at h
        cases h
        exact scrapeSearchPage_error e s u s1 hsp hs
      | ok res =>
        obtain ⟨s2, links⟩ := res
        rw [hsp] at h
        dsimp only at h
        obtain ⟨hinv2, hprops2⟩ := scrapeSearchPage_ok e s u s2 links hsp hs
        split_ifs at h with hcap
        obtain ⟨_, h2⟩ := ih s2 (acc ++ links) hinv2
        obtain ⟨ha, hc⟩ := h2 s1 h
        exact ⟨ha, hc.trans hprops2⟩

theorem scrapePropertySt_props (e : Env) (s : ScraperState) (u : String) :
    (scrapePropertySt e s u).1.properties = s.properties := by
  unfold scrapePropertySt initDriver
  split_ifs <;> rfl

theorem scrapePropertySt_inv (e : Env) (s : ScraperState) (u : String)
    (hs : physInv s) : physInv (scrapePropertySt e s u).1 := by
  unfold scrapePropertySt
  cases hid : initDriver e s with
  | error s2 =>
    exact (initDriver_error e s s2 hid hs).1
  | ok s2 =>
    exact (initDriver_ok_inv e s s2 hid hs).1

theorem extractStep_inv (e : Env) (s : ScraperState) (u : String)
    (hs : physInv s) : physInv (extractStep e s u) := by
  have h := scrapePropertySt_inv e s u hs
  unfold extractStep
  split_ifs with hacc
  · exact ⟨h.1, h.2⟩
  · exact h

theorem extractStep_len (e : Env) (s : ScraperState) (u : String) :
    (extractStep e s u).properties.length ≤ s.properties.length + 1 := by
  unfold extractStep
  split_ifs with hacc <;> simp [scrapePropertySt_props]

theorem extractLoop_inv (e : Env) (cap : Nat) :
    ∀ (links : List String) (s : ScraperState), physInv s →
      physInv (extractLoop e cap links s) := by
  intro links
  induction links with
  | nil => intro s hs; exact hs
  | cons u rest ih =>
    intro s hs
    unfold extractLoop
    split_ifs with hcap
    · exact hs
    · exact ih (extractStep e s u) (extractStep_inv e s u hs)

theorem extractLoop_len (e : Env) (cap : Nat) :
    ∀ (links : List String) (s : ScraperState),
      s.properties.length ≤ cap →
      (extractLoop e cap links s).properties.length ≤ cap := by
  intro links
  induction links with
  | nil => intro s hs; exact hs
  | cons u rest ih =>
    intro s hs
    unfold extractLoop
    split_ifs with hcap
    · exact hs
    · apply ih
      have h1 := extractStep_len e s u
      omega

theorem extractStep_mem (e : Env) (s : ScraperState) (u : String)
    (r : PropertyData) (h : r ∈ (extractStep e s u).properties) :
    r ∈ s.properties ∨ strTruthy r.title = true ∨
      strTruthy r.description = true := by
  unfold extractStep at h
  split_ifs at h with hacc
  · rw [show ({ (scrapePropertySt e s u).1 with
        properties := (scrapePropertySt e s u).1.properties ++
          [(scrapePropertySt e s u).2] } : ScraperState).properties =
        (scrapePropertySt e s u).1.properties ++ [(scrapePropertySt e s u).2]
      from rfl, scrapePropertySt_props] at h
    rcases List.mem_append.mp h with h1 | h1
    · exact Or.inl h1
    · rcases List.mem_singleton.mp h1 with rfl
      rcases Bool.or_eq_true _ _ |>.mp hacc with h2 | h2
      · exact Or.inr (Or.inl h2)
      · exact Or.inr (Or.inr h2)
  · rw [scrapePropertySt_props] at h
    exact Or.inl h

theorem closeDriver_props (s : ScraperState) :
    (closeDriver s).properties = s.properties := by
  unfold closeDriver
  split_ifs <;> rfl

theorem dedupF_aux_nodup :
    ∀ (l acc : List String), acc.Nodup →
      (l.foldl (fun acc href => if href ∈ acc then acc else acc ++ [href])
        acc).Nodup := by
  intro l
  induction l with
  | nil => intro acc h; exact h
  | cons x xs ih =>
    intro acc h
    simp only [List.foldl_cons]
    split_ifs with hx
    · exact ih acc h
    · apply ih
      simp [List.nodup_append, h, hx]

theorem dedupF_nodup (l : List String) : (dedupF l).Nodup :=
  dedupF_aux_nodup l [] List.nodup_nil

/-! ## Claim theorems -/

/-- Claim C1, amended. The claim asserts `price_per_sqft = price /
square_feet` whenever both are non-null and `square_feet > 0`, including
`price = 0`. On the code the guard at lines 209/251 is Python truthiness,
so a non-null zero price also yields a null `price_per_sqft`; the relation
holds exactly when both values are real, the price is nonzero and the
square footage is positive, and `price_per_sqft` is null in every other
case. (`realNum` reads the real number of a field, treating both Python
`None` and `nan` as null.) -/
theorem c1_price_per_sqft_relation (doc : Doc) (url : String) :
    realNum (scrapeProperty (some doc) url).price_per_sqft =
      match realNum (scrapeProperty (some doc) url).price,
          realNum (scrapeProperty (some doc) url).square_feet with
      | some p, some s => if p ≠ 0 ∧ 0 < s then some (p / s) else none
      | _, _ => none := by
  rw [scrapeProperty_psf, scrapeProperty_price, scrapeProperty_sqft]
  cases h : doc.sqftText with
  | none => cases hp : doc.priceText <;> simp [realNum]
  | some t =>
    cases hp : doc.priceText with
    | none => simp [realNum]
    | some pt =>
      simp only [Option.map_some']
      cases hq : parse_price pt with
      | none =>
        cases hr : parse_square_feet t with
        | none => simp [realNum, numTruthyV, pyDiv]
        | some sq =>
          by_cases hsq : sq = 0 <;> simp [realNum, numTruthyV, pyDiv, hsq]
      | some pq =>
        cases hr : parse_square_feet t with
        | none =>
          by_cases hpq : pq = 0 <;> simp [realNum, numTruthyV, pyDiv, hpq]
        | some sq =>
          have hnn := parse_square_feet_nonneg t sq hr
          by_cases hpq : pq = 0
          · simp [realNum, numTruthyV, pyDiv, hpq]
          · by_cases hsq : sq = 0
            · simp [realNum, numTruthyV, pyDiv, hpq, hsq]
            · have hpos : 0 < sq := lt_of_le_of_ne hnn (Ne.symm hsq)
              simp [realNum, numTruthyV, pyDiv, hpq, hsq, hpos]

/-- Claim C1 counterexample: a detail page whose price element reads `$0`
and whose square-feet element reads `100 SF`. Both fields are non-null
and the square footage is positive, yet the extracted `price_per_sqft`
is Python `None`, not `0 / 100`, because `0.0` is falsy. -/
theorem c1_zero_price_counterexample :
    (scrapeProperty (some docZeroPrice) "u").price = some (some (mkRat 0 1)) ∧
    (scrapeProperty (some docZeroPrice) "u").square_feet =
      some (some (mkRat 100 1)) ∧
    (0 : ℚ) < mkRat 100 1 ∧
    (scrapeProperty (some docZeroPrice) "u").price_per_sqft = none ∧
    (none : Option PyNum) ≠ some (some (mkRat 0 1 / mkRat 100 1)) :=
  ⟨by decide, by decide, by norm_num [Rat.mkRat_eq_div], by decide, by decide⟩

/-- Claim C3, amended. The capture `([^,]+)` cannot cross a comma, so on
`"Downtown Plaza, New York, NY"` the match starts after the first comma
and the captured city is `"New York"`, not `"Downtown Plaza, New York"`;
a string without a `", XX"` pattern yields `(None, None)`. -/
theorem c3_extract_city_state_values :
    extract_city_state "Downtown Plaza, New York, NY" =
      (some "New York", some "NY") ∧
    extract_city_state "Unknown Location" = (none, none) :=
  ⟨by decide, by decide⟩

/-- Claim C3 counterexample: the claimed city value `"Downtown Plaza, New
York"` is not what the code returns on the very input the claim cites. -/
theorem c3_city_counterexample :
    extract_city_state "Downtown Plaza, New York, NY" ≠
      (some "Downtown Plaza, New York", some "NY") := by decide

/-- Claim C5, amended. `parse_price` implements exactly the coercion the
claim describes (strip non-digit/comma/period characters, drop commas,
parse, null on failure), but `parse_square_feet` does not: it extracts the
first maximal run of digits and commas (a period terminates the run),
drops commas and parses that run. Both yield null on `"Contact for
price"` and `""` and are total functions (they never raise). -/
theorem c5_numeric_coercion :
    (∀ s, parse_price s = specNumCoerce s) ∧
    parse_price "Contact for price" = none ∧
    parse_price "" = none ∧
    parse_square_feet "Contact for price" = none ∧
    parse_square_feet "" = none ∧
    parse_square_feet "1,200.5" = some (mkRat 1200 1) ∧
    specNumCoerce "1,200.5" = some (mkRat 2401 2) :=
  ⟨fun _ => rfl, by decide, by decide, by decide, by decide, by decide,
    by decide⟩

/-- Claim C5 counterexample: on `"3.5"` the square-feet parser returns 3
(the digit run stops at the period), while the coercion the claim
ascribes to it returns 3.5. -/
theorem c5_sqft_counterexample :
    parse_square_feet "3.5" = some (mkRat 3 1) ∧
    specNumCoerce "3.5" = some (mkRat 7 2) ∧
    some (mkRat 3 1) ≠ some (mkRat 7 2) :=
  ⟨by decide, by decide, by decide⟩

/-- Claim C2, amended. In the code the `_init_driver()` call of
`scrape_search_page` (line 97) sits BEFORE the try block, so a session
initialization failure during the discovery phase propagates out of
`scrape_multiple_pages`: the crawl halts with the exception and no record
collection is returned to the caller (the scraper state at that moment is
the fresh `initState`, with an empty record list). Only during the
extraction phase is the initialization failure caught, inside
`scrape_property` (line 175 is inside the try of line 173), where the
default record is returned and the crawl continues. -/
theorem c2_session_failure_behavior :
    (∀ (e : Env) (cap : Nat) (u : String) (rest : List String),
      e.initOk = false →
      scrapeMultiplePages e cap (u :: rest) = .error initState) ∧
    (∀ (e : Env) (s : ScraperState) (u : String),
      e.initOk = false → s.driver = false →
      scrapePropertySt e s u = (s, initRecord u)) := by
  constructor
  · intro e cap u rest h
    unfold scrapeMultiplePages discoverLinks scrapeSearchPage initDriver
    simp [initState, h]
  · intro e s u h hd
    unfold scrapePropertySt initDriver
    simp [h, hd]

/-- Witness for C2: a concrete environment with failing initialization on
one seed. -/
theorem c2_session_failure_witness :
    envInitFail.initOk = false ∧
    scrapeMultiplePages envInitFail 5 ["u"] = .error initState :=
  ⟨rfl, c2_session_failure_behavior.1 envInitFail 5 "u" [] rfl⟩

/-- Claim C2 counterexample: with a failing session initialization and one
seed URL the crawl does NOT return a record collection — the SessionError
escapes `scrape_multiple_pages` (the result is the `.error` side, not an
`.ok` carrying records). -/
theorem c2_escape_counterexample :
    crawlOk (scrapeMultiplePages envInitFail 5 ["u"]) = false ∧
    scrapeMultiplePages envInitFail 5 ["u"] = Except.error initState :=
  ⟨rfl, rfl⟩

/-- Claim C4: the number of records in a normally-returned collection
never exceeds the configured cap (the extraction loop appends only while
`len(self.properties) < max_properties`). -/
theorem c4_record_cap (e : Env) (cap : Nat) (urls : List String)
    (h : crawlOk (scrapeMultiplePages e cap urls) = true) :
    (crawlRecords (scrapeMultiplePages e cap urls)).length ≤ cap := by
  cases hd : discoverLinks e cap urls initState [] with
  | error s =>
    have hsm : scrapeMultiplePages e cap urls = .error s := by
      unfold scrapeMultiplePages
      rw [hd]
    rw [hsm] at h
    simp [crawlOk] at h
  | ok res =>
    obtain ⟨s, all⟩ := res
    have hsm : scrapeMultiplePages e cap urls =
        .ok (closeDriver (extractLoop e cap ((dedupF all).take cap) s),
          (closeDriver (extractLoop e cap ((dedupF all).take cap) s)).properties) := by
      unfold scrapeMultiplePages
      rw [hd]
    rw [hsm]
    have hprops : s.properties = [] := by
      have h2 := ((discoverLinks_inv e cap urls initState []
        ⟨rfl, rfl⟩).1 s all hd).2
      simpa [initState] using h2
    dsimp only [crawlRecords]
    rw [closeDriver_props]
    exact extractLoop_len e cap _ s (by simp [hprops])

/-- Witness for C4: a concrete healthy crawl returning one record under a
cap of five. -/
theorem c4_record_cap_witness :
    crawlOk (scrapeMultiplePages envOk 5 ["A"]) = true ∧
    (crawlRecords (scrapeMultiplePages envOk 5 ["A"])).length ≤ 5 :=
  ⟨rfl, c4_record_cap envOk 5 ["A"] rfl⟩

/-- Claim C6: after the discovery phase the merged LinkSet holds no
duplicate URLs, whatever duplication occurred within or across seed
pages; and the two-seed example (A yields L1, L2, L3 with an in-page
duplicate, B yields L2, L4) merges to exactly the four links. -/
theorem c6_linkset_nodup :
    (∀ (e : Env) (cap : Nat) (urls : List String) (L : List String),
      crawlLinkSet e cap urls = some L → L.Nodup) ∧
    crawlLinkSet envMerge 100 ["A", "B"] = some ["L1", "L2", "L3", "L4"] := by
  constructor
  · intro e cap urls L h
    unfold crawlLinkSet at h
    cases hd : discoverLinks e cap urls initState [] with
    | error s => rw [hd] at h; cases h
    | ok res =>
      obtain ⟨s, all⟩ := res
      rw [hd] at h
      cases h
      exact (dedupF_nodup all).sublist (List.take_sublist _ _)
  · decide

/-- Witness for C6: the merged LinkSet of the example has no
duplicates. -/
theorem c6_linkset_witness : (["L1", "L2", "L3", "L4"] : List String).Nodup :=
  c6_linkset_nodup.1 envMerge 100 ["A", "B"] ["L1", "L2", "L3", "L4"]
    (by decide)

/-- Claim C7, amended. A record is appended during the extraction phase
if and only if its title or description is non-null AND non-empty (Python
truthiness at line 324) and the record cap has not yet been reached: every
record in the output beyond those already present is truthy in one of the
two fields, and for a single link below the cap the append happens exactly
under the truthiness test. -/
theorem c7_accept_policy :
    (∀ (e : Env) (cap : Nat) (links : List String) (s : ScraperState)
        (r : PropertyData), r ∈ (extractLoop e cap links s).properties →
      r ∈ s.properties ∨ strTruthy r.title = true ∨
        strTruthy r.description = true) ∧
    (∀ (e : Env) (cap : Nat) (u : String), 0 < cap →
      (extractLoop e cap [u] initState).properties =
        (if strTruthy (scrapePropertySt e initState u).2.title ||
            strTruthy (scrapePropertySt e initState u).2.description then
          [(scrapePropertySt e initState u).2]
        else [])) := by
  constructor
  · intro e cap links
    induction links with
    | nil => intro s r hr; exact Or.inl hr
    | cons u rest ih =>
      intro s r hr
      unfold extractLoop at hr
      split_ifs at hr with hcap
      · exact Or.inl hr
      · rcases ih (extractStep e s u) r hr with h | h | h
        · rcases extractStep_mem e s u r h with h2 | h2 | h2
          · exact Or.inl h2
          · exact Or.inr (Or.inl h2)
          · exact Or.inr (Or.inr h2)
        · exact Or.inr (Or.inl h)
        · exact Or.inr (Or.inr h)
  · intro e cap u hcap
    have h0 : ¬ cap ≤ initState.properties.length := by
      have hl : initState.properties.length = 0 := rfl
      omega
    unfold extractLoop
    rw [if_neg h0]
    show (extractStep e initState u).properties = _
    unfold extractStep
    split_ifs with hacc <;> simp [scrapePropertySt_props, initState]

/-- Witness for C7: a concrete link whose record has a truthy title and is
appended. -/
theorem c7_accept_witness :
    0 < 10 ∧
    (extractLoop envOk 10 ["L1"] initState).properties =
      (if strTruthy (scrapePropertySt envOk initState "L1").2.title ||
          strTruthy (scrapePropertySt envOk initState "L1").2.description then
        [(scrapePropertySt envOk initState "L1").2]
      else []) :=
  ⟨by decide, c7_accept_policy.2 envOk 10 "L1" (by decide)⟩

/-- Claim C7 counterexample: a detail page whose title element cleans to
the empty string yields a record with a NON-NULL title (`some ""`) and a
null description, yet the record is discarded, refuting the claimed
if-and-only-if with plain non-nullness. -/
theorem c7_empty_title_counterexample :
    (scrapeProperty (some docHashTitle) "L1").title = some "" ∧
    (some "" : Option String) ≠ none ∧
    (extractLoop envHash 10 ["L1"] initState).properties = [] :=
  ⟨by decide, by decide, by decide⟩

/-- Claim C8, amended. On normal crawl completion the session is released
exactly as many times as it was initialized (at most once, so never
twice) and no driver is left open. On fatal abort nothing is ever
released, and the abort CAN leave a live session behind: when the driver
construction at line 72 succeeds and the `execute_script` at line 73 then
raises, the SessionError escapes `scrape_multiple_pages` (which has no
handler and no finally) with `self.driver` holding a live, never-released
session — the resource leaks. Only when the construction itself fails is
nothing acquired and nothing leaked. The abort state always satisfies
`releases = 0`, with `inits = 1` exactly when a live driver is left
behind. -/
theorem c8_resource_release (e : Env) (cap : Nat) (urls : List String) :
    (∀ (s : ScraperState) (props : List PropertyData),
      scrapeMultiplePages e cap urls = .ok (s, props) →
      s.releases = s.inits ∧ s.inits ≤ 1 ∧ s.driver = false) ∧
    (∀ s : ScraperState, scrapeMultiplePages e cap urls = .error s →
      s.releases = 0 ∧ s.inits = (if s.driver then 1 else 0) ∧
        s.inits ≤ 1) := by
  constructor
  · intro s props h
    cases hd : discoverLinks e cap urls initState [] with
    | error s2 =>
      have hsm : scrapeMultiplePages e cap urls = .error s2 := by
        unfold scrapeMultiplePages
        rw [hd]
      rw [hsm] at h
      cases h
    | ok res =>
      obtain ⟨s2, all⟩ := res
      have hsm : scrapeMultiplePages e cap urls =
          .ok (closeDriver (extractLoop e cap ((dedupF all).take cap) s2),
            (closeDriver (extractLoop e cap ((dedupF all).take cap)
              s2)).properties) := by
        unfold scrapeMultiplePages
        rw [hd]
      rw [hsm] at h
      cases h
      have hinv := ((discoverLinks_inv e cap urls initState []
        ⟨rfl, rfl⟩).1 s2 all hd).1
      have hinv2 := extractLoop_inv e cap ((dedupF all).take cap) s2 hinv
      unfold closeDriver
      split_ifs with hdrv
      · have h1 : (extractLoop e cap ((dedupF all).take cap) s2).inits = 1 := by
          rw [hinv2.2, if_pos hdrv]
        simp [hinv2.1, h1]
      · have h1 : (extractLoop e cap ((dedupF all).take cap) s2).inits = 0 := by
          rw [hinv2.2, if_neg hdrv]
        rw [Bool.not_eq_true] at hdrv
        simp [hinv2.1, h1, hdrv]
  · intro s h
    cases hd : discoverLinks e cap urls initState [] with
    | error s2 =>
      have hsm : scrapeMultiplePages e cap urls = .error s2 := by
        unfold scrapeMultiplePages
        rw [hd]
      rw [hsm] at h
      cases h
      obtain ⟨hinv, _⟩ := (discoverLinks_inv e cap urls initState []
        ⟨rfl, rfl⟩).2 _ hd
      refine ⟨hinv.1, hinv.2, ?_⟩
      rw [hinv.2]
      split_ifs <;> omega
    | ok res =>
      obtain ⟨s2, all⟩ := res
      have hsm : scrapeMultiplePages e cap urls =
          .ok (closeDriver (extractLoop e cap ((dedupF all).take cap) s2),
            (closeDriver (extractLoop e cap ((dedupF all).take cap)
              s2)).properties) := by
        unfold scrapeMultiplePages
        rw [hd]
      rw [hsm] at h
      cases h

/-- Witness for C8: a concrete healthy crawl, on the normal-completion
side of the theorem. -/
theorem c8_resource_release_witness :
    (finalStateOf (scrapeMultiplePages envOk 5 ["A"])).releases =
      (finalStateOf (scrapeMultiplePages envOk 5 ["A"])).inits ∧
    (finalStateOf (scrapeMultiplePages envOk 5 ["A"])).inits ≤ 1 ∧
    (finalStateOf (scrapeMultiplePages envOk 5 ["A"])).driver = false :=
  (c8_resource_release envOk 5 ["A"]).1
    (finalStateOf (scrapeMultiplePages envOk 5 ["A"]))
    (crawlRecords (scrapeMultiplePages envOk 5 ["A"])) rfl

/-- Claim C8 counterexample: an environment whose driver construction
(line 72) succeeds but whose `execute_script` (line 73) raises. The crawl
aborts via the uncaught SessionError while the state holds a live session
(`driver = true`, one construction) that is never released
(`releases = 0`) — the initialized resource is leaked on this exit path,
refuting released-exactly-once-on-every-exit-path. -/
theorem c8_leak_counterexample :
    scrapeMultiplePages envInitLeak 5 ["u"] =
      Except.error { initState with driver := true, inits := 1 } ∧
    ({ initState with driver := true, inits := 1 } : ScraperState).driver
      = true ∧
    ({ initState with driver := true, inits := 1 } : ScraperState).releases
      = 0 :=
  ⟨rfl, rfl, rfl⟩

/-- Claim C10, amended. `scrape_property` is total and always returns the
full schema mapping — which has 15 fields, not 14 — with `source` fixed
to `"LoopNet"` and `url` equal to the input URL; when the fetch itself
fails every other field is null (the record equals the initial schema
dictionary). -/
theorem c10_schema_total (fetched : Option Doc) (url : String) :
    (scrapeProperty fetched url).toMap.map Prod.fst = schemaKeys ∧
    (scrapeProperty fetched url).source = "LoopNet" ∧
    (scrapeProperty fetched url).url = url ∧
    (fetched = none → scrapeProperty fetched url = initRecord url) := by
  refine ⟨rfl, ?_, ?_, ?_⟩
  · cases fetched with
    | none => rfl
    | some doc =>
      show (setId url (metaPass (primaryPass doc (initRecord url))
        doc.metaTags)).source = _
      rw [setId_source, metaPass_source]
      unfold primaryPass
      rw [stepLocation_source, stepSqft_source, stepPrice_source,
        stepDesc_source, stepTitle_source]
      rfl
  · cases fetched with
    | none => rfl
    | some doc =>
      show (setId url (metaPass (primaryPass doc (initRecord url))
        doc.metaTags)).url = _
      rw [setId_url, metaPass_url]
      unfold primaryPass
      rw [stepLocation_url, stepSqft_url, stepPrice_url, stepDesc_url,
        stepTitle_url]
      rfl
  · intro hf
    subst hf
    rfl

/-- Witness for C10: the failed-fetch case at a concrete URL. -/
theorem c10_schema_witness :
    (none : Option Doc) = none ∧ scrapeProperty none "u" = initRecord "u" :=
  ⟨rfl, (c10_schema_total none "u").2.2.2 rfl⟩

/-- Claim C10 counterexample: the schema mapping returned by
`scrape_property` has 15 fields, not the 14 the claim states. -/
theorem c10_fourteen_counterexample :
    ((scrapeProperty none "u").toMap.map Prod.fst).length = 15 ∧
    ((scrapeProperty none "u").toMap.map Prod.fst).length ≠ 14 :=
  ⟨rfl, by decide⟩

/-- Claim C9, amended. The secondary metadata pass fills title and
description only when the field is still falsy — null OR empty — after
the primary pass: it never overrides a non-empty extracted value, but it
DOES override a non-null empty-string value. -/
theorem c9_metadata_no_override (pd : PropertyData)
    (tags : List (String × String)) :
    (strTruthy pd.title = true → (metaPass pd tags).title = pd.title) ∧
    (strTruthy pd.description = true →
      (metaPass pd tags).description = pd.description) :=
  ⟨metaPass_title_truthy pd tags, metaPass_desc_truthy pd tags⟩

/-- Witness for C9: a record with a non-empty title passes through the
metadata pass unchanged. -/
theorem c9_metadata_witness :
    strTruthy ({ initRecord "u" with title := some "T" } : PropertyData).title
      = true ∧
    (metaPass { initRecord "u" with title := some "T" }
      [("og:title", "X")]).title =
      ({ initRecord "u" with title := some "T" } : PropertyData).title :=
  ⟨by decide, (c9_metadata_no_override _ _).1 (by decide)⟩

/-- Claim C9 counterexample: a primary pass that extracts a title cleaning
to `""` produces a NON-NULL title, and the metadata pass then overrides it
with the `og:title` content, refuting `assigns only when still null`. -/
theorem c9_override_counterexample :
    (scrapeProperty (some docHashTitle) "u").title = some "" ∧
    (some "" : Option String) ≠ none ∧
    (scrapeProperty (some docHashTitleMeta) "u").title = some "Nice Building" ∧
    (scrapeProperty (some docHashTitleMeta) "u").title ≠
      (scrapeProperty (some docHashTitle) "u").title :=
  ⟨by decide, by decide, by decide, by decide⟩
